import Mathlib

/-!
Verification development for the multiplayer combat engine
(`core/managers/combat_service.py`, class `CombatService`).

The combat engine is shallowly embedded as pure Lean functions over an
explicit session state.  External collaborators (the language-model oracle,
the JSON parser, the rule validator `validate_combat_response`, the preroll
generator `generate_prerolls`, the document store reloads performed by
`sync_active_encounter` / `_refresh_conversation_history`, and
`clean_old_dm_notes`) are passed in as function parameters bundled in `Env`,
exactly as the code treats them as collaborators.  Persistence writes
(`save_json_file` on the encounter document) and oracle calls are counted
explicitly where a claim is about them.

Modelling conventions:
- Python dict `.get(key, default)` on creature fields is modelled by storing
  the field with the default already applied (`status` defaults to "alive",
  `initiative` to 0); optional top-level keys (`combat_round`,
  `current_round`, `preroll_cache`) are `Option` fields read with `getD`.
- `update_character_info` / `update_encounter.update_encounter` mutate
  on-disk documents only; `_process_action` therefore has no effect on the
  in-memory session state and is modelled as such.
-/

namespace NEQ

/-- A transcript message `{role, content}`. -/
structure Message where
  role : String
  content : String
deriving DecidableEq

/-- The `preroll_cache` entry `{round, rolls, preroll_id}` stored on the
encounter document. -/
structure PrerollCache where
  round : Int
  rolls : String
  preroll_id : String
deriving DecidableEq

/-- A creature entry of the encounter document.  Fields carry the
`.get` defaults used by the code (`status` defaults to `"alive"`,
`initiative` to `0`, `name` to `""`). -/
structure Creature where
  name : String
  type : String
  initiative : Int
  currentHitPoints : Int
  maxHitPoints : Int
  status : String
deriving DecidableEq

/-- The in-memory encounter document (`self.encounter_data`): the fields the
combat service reads or writes.  `combat_round` and `current_round` may be
absent from the document, hence `Option`. -/
structure Encounter where
  creatures : List Creature
  combat_round : Option Int
  current_round : Option Int
  preroll_cache : Option PrerollCache
deriving DecidableEq

/-- The in-memory session state of a `CombatService` instance. -/
structure Session where
  encounter_id : String
  is_active : Bool
  current_turn_character : Option String
  conversation_history : List Message
  encounter_data : Encounter
deriving DecidableEq

/-- The in-memory view of a parsed AI response: `_process_ai_response` only
reads the optional top-level `combat_round` field into memory (the `actions`
array is delegated to external document mutators). -/
structure ParsedResponse where
  combat_round : Option Int
deriving DecidableEq

/-- One entry of the client-facing `initiative_order` list built by
`get_current_combat_state`. -/
structure InitEntry where
  name : String
  initiative : Int
  type : String
  current_hp : Int
  max_hp : Int
  status : String
deriving DecidableEq

/-- The payload of the active branch of `get_current_combat_state`.  The
`player_info` and `creatures` display blocks are pure projections of
external character documents and are not modelled. -/
structure ActivePayload where
  encounter_id : String
  current_round : Int
  current_turn : Option String
  initiative_order : List InitEntry
  combat_log : List String
deriving DecidableEq

/-- Return value of `get_current_combat_state`: either the bare
`{"is_active": False}` payload or the full active payload. -/
inductive StatePayload where
  | inactive
  | active (p : ActivePayload)
deriving DecidableEq

/-- Return value of `process_player_turn` / `process_ai_turns`: an
`{"error": msg}` dict or a combat-state dict. -/
inductive TurnResult where
  | error (msg : String)
  | state (p : StatePayload)
deriving DecidableEq

/-- Result of the validate-and-retry loop, instrumented with the number of
oracle calls made (`attempts`). -/
structure RetryResult where
  response : Option String
  history : List Message
  attempts : Nat
deriving DecidableEq

/-- Result of `_get_prerolls_for_round`, instrumented with the number of
`save_json_file` persistence writes (`saves`) and `generate_prerolls`
invocations (`gens`) it performed. -/
structure PrerollResult where
  text : String
  encounter : Encounter
  saves : Nat
  gens : Nat
deriving DecidableEq

/-- External collaborators of the combat service, as consumed by the code. -/
structure Env where
  /-- `client.chat.completions.create`, a function of the message history
  and the attempt number (the temperature schedule varies per attempt);
  `none` models the `except` branch (API failure). -/
  oracle : List Message → Nat → Option String
  /-- `is_valid_json`. -/
  isValidJson : String → Bool
  /-- `validate_combat_response`: `none` models the `True` (accept) result,
  `some fb` a feedback string. -/
  validate : String → Option String
  /-- `json.loads` plus field extraction in `_process_ai_response`;
  `none` models a parse exception. -/
  parse : String → Option ParsedResponse
  /-- `generate_prerolls`. -/
  gen : Encounter → Int → String
  /-- `random.randint(1000, 9999)` used in the preroll id. -/
  rand : Int
  /-- Combined store effect of `sync_active_encounter` and
  `_refresh_conversation_history`: both only rewrite transcript contents and
  reload the encounter document. -/
  refresh : List Message → Encounter → List Message × Encounter
  /-- `clean_old_dm_notes`. -/
  cleanNotes : List Message → List Message
  /-- `json.loads` plus the `narration` field lookup used for the combat
  log; `none` when parsing fails or no narration key is present. -/
  extractNarration : String → Option String
  /-- `_prepare_dynamic_state` output: a textual rendering that reads NPC
  template documents from the store. -/
  dynState : Encounter → String
  /-- `get_initiative_order` (imported from `combat_manager`). -/
  initOrder : Encounter → String

/-- ASCII lowercasing, `str.lower()` (same as `String.toLower`, written
over the character list so that it reduces in the kernel). -/
def lowerStr (s : String) : String :=
  ⟨s.data.map Char.toLower⟩

/-- Liveness test used throughout: `status.lower() == "dead"`. -/
def isDead (c : Creature) : Bool :=
  lowerStr c.status == "dead"

/-- The living-creature sublist (`status.lower() != "dead"`). -/
def aliveOf (cs : List Creature) : List Creature :=
  cs.filter (fun c => !(isDead c))

/-- The sort key order `(-initiative, name)` used by `_determine_first_turn`
and `_advance_turn`: higher initiative first, name ascending as tie-break. -/
def keyLe (a b : Creature) : Prop :=
  b.initiative < a.initiative ∨ (a.initiative = b.initiative ∧ a.name ≤ b.name)

instance : DecidableRel keyLe := fun a b => by
  unfold keyLe; exact inferInstance

instance : IsTotal Creature keyLe := by
  constructor
  intro a b
  rcases lt_trichotomy a.initiative b.initiative with h | h | h
  · exact Or.inr (Or.inl h)
  · rcases le_total a.name b.name with hn | hn
    · exact Or.inl (Or.inr ⟨h, hn⟩)
    · exact Or.inr (Or.inr ⟨h.symm, hn⟩)
  · exact Or.inl (Or.inl h)

instance : IsTrans Creature keyLe := by
  constructor
  intro a b c hab hbc
  rcases hab with h1 | ⟨h1, h1n⟩ <;> rcases hbc with h2 | ⟨h2, h2n⟩
  · exact Or.inl (lt_trans h2 h1)
  · exact Or.inl (h2 ▸ h1)
  · exact Or.inl (h1 ▸ h2)
  · exact Or.inr ⟨h1.trans h2, le_trans h1n h2n⟩

/-- Python's stable `sorted(creatures, key=lambda x: (-initiative, name))`. -/
def sortCreatures (cs : List Creature) : List Creature :=
  List.insertionSort keyLe cs

/-- The linear scan of `_advance_turn` that finds the index of the first
creature whose name equals the current-turn name. -/
def findIdxAux (n : String) : List Creature → Option Nat
  | [] => none
  | c :: rest =>
      if c.name == n then some 0 else (findIdxAux n rest).map (· + 1)

/-- Index lookup of the current-turn creature; `current_turn_character` may
be `None`, which matches no creature. -/
def findIdxByName : Option String → List Creature → Option Nat
  | none, _ => none
  | some n, l => findIdxAux n l

/-- `encounter_data.get('combat_round', encounter_data.get('current_round', 1))`. -/
def effectiveRound (e : Encounter) : Int :=
  (e.combat_round).getD ((e.current_round).getD 1)

/-- `_determine_first_turn`: sort ALL creatures (dead ones included) by
`(-initiative, name)` and return the first name. -/
def determineFirstTurn (e : Encounter) : Option String :=
  if e.creatures = [] then none
  else ((sortCreatures e.creatures).head?).map Creature.name

/-- `_get_prerolls_for_round`.  The cached round defaults to 0; a requested
round strictly greater than the cached round (or an empty cached text)
triggers generation plus an immediate `save_json_file` of the encounter. -/
def getPrerollsForRound (gen : Encounter → Int → String) (rand : Int)
    (enc : Encounter) (roundNum : Int) : PrerollResult :=
  let cachedRound := ((enc.preroll_cache).map PrerollCache.round).getD 0
  if cachedRound < roundNum then
    let text := gen enc roundNum
    let cache : PrerollCache :=
      ⟨roundNum, text, toString roundNum ++ "-" ++ toString rand⟩
    ⟨text, { enc with preroll_cache := some cache }, 1, 1⟩
  else
    let text := ((enc.preroll_cache).map PrerollCache.rolls).getD ""
    if text = "" then
      let text2 := gen enc roundNum
      let cache : PrerollCache :=
        ⟨roundNum, text2, toString roundNum ++ "-" ++ toString rand⟩
      ⟨text2, { enc with preroll_cache := some cache }, 1, 1⟩
    else ⟨text, enc, 0, 0⟩

/-- Increment the oracle-call counter of a retry-loop result. -/
def addAttempt (r : RetryResult) : RetryResult :=
  ⟨r.response, r.history, r.attempts + 1⟩

/-- The corrective note appended on a malformed response. -/
def invalidJsonNote : Message :=
  ⟨"user", "Invalid JSON format. Please try again."⟩

/-- The body of `_get_ai_response_with_validation`, written with explicit
fuel: a call with fuel `f` and attempt index `a` stands for the loop
iterations `a, a+1, ..., a+f-1` of `for attempt in range(max_retries)`, so
`fuel = max_retries - attempt` and the Python guard
`attempt < max_retries - 1` is exactly `fuel != 1`, i.e. `fuel - 1 != 0`
inside the `fuel + 1` pattern. -/
def retryAux (oracle : List Message → Nat → Option String)
    (isJson : String → Bool) (validate : String → Option String) :
    Nat → Nat → List Message → RetryResult
  | 0, _, hist => ⟨none, hist, 0⟩
  | fuel + 1, attempt, hist =>
    match oracle hist attempt with
    | none =>
        -- the `except` branch: return None on the last attempt, otherwise
        -- loop again without touching the transcript
        if fuel = 0 then ⟨none, hist, 1⟩
        else addAttempt (retryAux oracle isJson validate fuel (attempt + 1) hist)
    | some resp =>
        if isJson resp then
          match validate resp with
          | none =>
              -- validation returned True: append the accepted response
              ⟨some resp, hist ++ [⟨"assistant", resp⟩], 1⟩
          | some fb =>
              if fuel = 0 then ⟨none, hist, 1⟩
              else addAttempt (retryAux oracle isJson validate fuel (attempt + 1)
                     (hist ++ [⟨"user", fb⟩]))
        else
          if fuel = 0 then ⟨none, hist, 1⟩
          else addAttempt (retryAux oracle isJson validate fuel (attempt + 1)
                 (hist ++ [invalidJsonNote]))

/-- `max_retries = 5` of `_get_ai_response_with_validation`. -/
def maxRetries : Nat := 5

/-- `_get_ai_response_with_validation` run from attempt 0. -/
def getAIResponseWithValidation (oracle : List Message → Nat → Option String)
    (isJson : String → Bool) (validate : String → Option String)
    (hist : List Message) : RetryResult :=
  retryAux oracle isJson validate maxRetries 0 hist

/-- `_process_ai_response`: the `actions` array is delegated to external
document mutators (no in-memory effect); the optional `combat_round` field
overwrites the encounter round, then the encounter is saved once.  A parse
exception is caught and leaves everything unchanged.  The `Nat` counts
`save_json_file` writes. -/
def processAIResponse (parse : String → Option ParsedResponse)
    (aiResponse : String) (enc : Encounter) : Encounter × Nat :=
  match parse aiResponse with
  | none => (enc, 0)
  | some p =>
      match p.combat_round with
      | some r => ({enc with combat_round := some r}, 1)
      | none => (enc, 1)

/-- `_advance_turn`.  The Python guard `current_index < len(alive) - 1` is
written `i + 1 < length` (equivalent over the reachable states, where the
alive list is non-empty). -/
def advanceTurn (s : Session) : Session :=
  if s.encounter_data.creatures = [] then s
  else if aliveOf s.encounter_data.creatures = [] then s
  else
    match findIdxByName s.current_turn_character
        (sortCreatures (aliveOf s.encounter_data.creatures)) with
    | some i =>
        if i + 1 < (sortCreatures (aliveOf s.encounter_data.creatures)).length then
          {s with current_turn_character :=
            ((sortCreatures (aliveOf s.encounter_data.creatures))[i+1]?).map Creature.name}
        else
          {s with
            current_turn_character :=
              ((sortCreatures (aliveOf s.encounter_data.creatures))[0]?).map Creature.name,
            encounter_data :=
              {s.encounter_data with
                combat_round := some (s.encounter_data.combat_round.getD 1 + 1)}}
    | none =>
        {s with current_turn_character :=
          ((sortCreatures (aliveOf s.encounter_data.creatures))[0]?).map Creature.name}

/-- `creatures` of type `player`. -/
def playersOf (cs : List Creature) : List Creature :=
  cs.filter (fun c => c.type == "player")

/-- `creatures` whose type is `enemy` or `npc`. -/
def hostilesOf (cs : List Creature) : List Creature :=
  cs.filter (fun c => c.type == "enemy" || c.type == "npc")

/-- `_check_combat_ended`. -/
def checkCombatEnded (enc : Encounter) : Bool :=
  if enc.creatures.isEmpty then true
  else if !(playersOf enc.creatures).isEmpty
          && (playersOf enc.creatures).all isDead then true
  else if !(hostilesOf enc.creatures).isEmpty
          && (hostilesOf enc.creatures).all isDead then true
  else false

/-- In-memory effect of `_end_combat`: set `is_active = False` (the party
tracker write, summary and chat-history generation are external). -/
def endCombat (s : Session) : Session :=
  {s with is_active := false}

/-- The sort key order on snapshot entries, same `(-initiative, name)`. -/
def entryLe (a b : InitEntry) : Prop :=
  b.initiative < a.initiative ∨ (a.initiative = b.initiative ∧ a.name ≤ b.name)

instance : DecidableRel entryLe := fun a b => by
  unfold entryLe; exact inferInstance

/-- Snapshot entry of a creature. -/
def toInitEntry (c : Creature) : InitEntry :=
  ⟨c.name, c.initiative, c.type, c.currentHitPoints, c.maxHitPoints, c.status⟩

/-- The `initiative_order` list of `get_current_combat_state`: creatures
whose status is not dead (case-insensitively), sorted by
`(-initiative, name)`. -/
def initiativeOrder (enc : Encounter) : List InitEntry :=
  List.insertionSort entryLe
    ((enc.creatures.filter (fun c => !(isDead c))).map toInitEntry)

/-- The last ten transcript entries reduced to narration / player-action
lines, as in `get_current_combat_state`. -/
def extractLog (extractNarration : String → Option String)
    (hist : List Message) : List String :=
  (hist.drop (hist.length - 10)).foldl
    (fun acc msg =>
      if msg.role == "assistant" then
        acc ++ ["DM: " ++ ((extractNarration msg.content).getD msg.content)]
      else if msg.role == "user" then
        match msg.content.splitOn "Player:" with
        | [] => acc
        | [_] => acc
        | _ :: rest =>
            let part := (String.intercalate "Player:" rest).trim
            if part == "" then acc else acc ++ ["Player: " ++ part]
      else acc)
    []

/-- `get_current_combat_state`. -/
def getCurrentCombatState (extractNarration : String → Option String)
    (s : Session) : StatePayload :=
  if s.is_active = false then .inactive
  else .active
    { encounter_id := s.encounter_id
      current_round := effectiveRound s.encounter_data
      current_turn := s.current_turn_character
      initiative_order := initiativeOrder s.encounter_data
      combat_log := extractLog extractNarration s.conversation_history }

/-- Python renders `None` as the string `"None"` in f-strings. -/
def optNameStr : Option String → String
  | none => "None"
  | some n => n

/-- The rejection message of the turn-ownership guard. -/
def notYourTurnMsg (playerName : String) (cur : Option String) : String :=
  "It\x27s not " ++ playerName ++ "\x27s turn. Current turn: " ++ optNameStr cur

/-- The dice-usage instruction block shared by both prompt builders. -/
def diceUsageBlock : String :=
  "--- PRE-ROLLED DICE FOR NPCS/MONSTERS ---\n\n" ++
  "CRITICAL DICE USAGE - YOU MUST FOLLOW THESE RULES:\n" ++
  "1. For an NPC/Monster ATTACK ROLL: You MUST use a die from the \x27== CREATURE ATTACKS ==\x27 list for that specific creature.\n" ++
  "2. For an NPC/Monster SAVING THROW: You MUST use a die from the \x27== SAVING THROWS ==\x27 list for that specific creature.\n" ++
  "3. The \x27== GENERIC DICE ==\x27 pool is ONLY for damage rolls, spell effects, or other non-attack/non-save rolls.\n" ++
  "FAILURE TO USE THE CORRECT POOL IS A CRITICAL ERROR.\n\n"

/-- `_create_combat_prompt`. -/
def combatPrompt (actionText dynState prerollText initOrderText : String)
    (currentRound : Int) : String :=
  "--- CURRENT COMBAT STATE ---\nRound: " ++ toString currentRound ++
  "\nInitiative Order: " ++ initOrderText ++
  "\nAll Creatures State:\n" ++ dynState ++ "\n\n" ++
  diceUsageBlock ++ prerollText ++ "\n--- END OF STATE & DICE ---\n\n" ++
  "Player: " ++ actionText ++ "\n\n" ++
  "Now, continue the combat flow by narrating and resolving all remaining monster and NPC turns for the current round in initiative order until you get to my turn or, if I\x27m done this turn, then narrate the rest of this round.\n\n" ++
  "Your response narratively MUST stop at one of two points:\n" ++
  "1.  When you have resolved the turn for the LAST creature in the current round\x27s initiative order.\n" ++
  "2.  When the initiative order returns to my turn again.\n\n" ++
  "Do not narrate or process any actions from the next round in this response. The goal is to complete the current round of actions and then pause. If you do need to stop, please engage me creatively so I don\x27t get bored."

/-- `_create_ai_turn_prompt`. -/
def aiTurnPrompt (creatureName creatureType dynState prerollText : String)
    (currentRound : Int) : String :=
  "--- CURRENT COMBAT STATE ---\nRound: " ++ toString currentRound ++
  "\nCurrent Turn: " ++ creatureName ++ " (" ++ creatureType ++ ")" ++
  "\nAll Creatures State:\n" ++ dynState ++ "\n\n" ++
  diceUsageBlock ++ prerollText ++ "\n--- END OF STATE & DICE ---\n\n" ++
  "Dungeon Master Note: It is now " ++ creatureName ++ "\x27s turn. Please narrate their action and resolve it according to their abilities and the current combat situation. Use the prerolled dice appropriately."

/-- `process_player_turn`: inactive guard, turn-ownership guard, then the
refresh / preroll / prompt / validate / apply / advance / end pipeline.
`save_json_file` of the conversation history at the end only persists the
in-memory transcript and is not separately modelled. -/
def processPlayerTurn (env : Env) (s : Session) (playerName actionText : String) :
    TurnResult × Session :=
  if s.is_active = false then (.error "Combat is not active", s)
  else if some playerName ≠ s.current_turn_character then
    (.error (notYourTurnMsg playerName s.current_turn_character), s)
  else
    let re := env.refresh s.conversation_history s.encounter_data
    let s1 : Session := {s with conversation_history := re.1, encounter_data := re.2}
    let dynState := env.dynState s1.encounter_data
    let currentRound := effectiveRound s1.encounter_data
    let pr := getPrerollsForRound env.gen env.rand s1.encounter_data currentRound
    let s2 : Session := {s1 with encounter_data := pr.encounter}
    let prompt := combatPrompt actionText dynState pr.text
      (env.initOrder s2.encounter_data) currentRound
    let hist2 := env.cleanNotes s2.conversation_history ++ [⟨"user", prompt⟩]
    let r := retryAux env.oracle env.isValidJson env.validate maxRetries 0 hist2
    let s3 : Session := {s2 with conversation_history := r.history}
    match r.response with
    | none => (.error "Failed to get AI response", s3)
    | some resp =>
        let pa := processAIResponse env.parse resp s3.encounter_data
        let s4 := advanceTurn {s3 with encounter_data := pa.1}
        if checkCombatEnded s4.encounter_data then
          let s5 := endCombat s4
          (.state (getCurrentCombatState env.extractNarration s5), s5)
        else
          (.state (getCurrentCombatState env.extractNarration s4), s4)

/-- `_process_ai_turn`: builds the AI-turn prompt (which fetches prerolls and
may write the preroll cache), appends it, runs the validation loop, and
applies a successful response; on failure the turn is simply skipped. -/
def processAITurn (env : Env) (c : Creature) (s : Session) : Session :=
  let dynState := env.dynState s.encounter_data
  let currentRound := effectiveRound s.encounter_data
  let pr := getPrerollsForRound env.gen env.rand s.encounter_data currentRound
  let s1 : Session := {s with encounter_data := pr.encounter}
  let prompt := aiTurnPrompt c.name c.type dynState pr.text currentRound
  let hist1 := s1.conversation_history ++ [⟨"user", prompt⟩]
  let r := retryAux env.oracle env.isValidJson env.validate maxRetries 0 hist1
  let s2 : Session := {s1 with conversation_history := r.history}
  match r.response with
  | some resp =>
      {s2 with encounter_data := (processAIResponse env.parse resp s2.encounter_data).1}
  | none => s2

/-- The `while self.current_turn_character and self.is_active` loop of
`process_ai_turns`, with explicit fuel (the Python loop is unbounded). -/
def aiLoop (env : Env) : Nat → Session → Session
  | 0, s => s
  | fuel + 1, s =>
    match s.current_turn_character with
    | none => s
    | some curName =>
      if curName = "" then s
      else if s.is_active = false then s
      else
        match s.encounter_data.creatures.find? (fun c => c.name == curName) with
        | none => s
        | some c =>
          if c.type == "player" then s
          else
            let s1 := processAITurn env c s
            let s2 := advanceTurn s1
            if checkCombatEnded s2.encounter_data then endCombat s2
            else aiLoop env fuel s2

/-- `process_ai_turns`. -/
def processAITurns (env : Env) (fuel : Nat) (s : Session) : TurnResult × Session :=
  if s.is_active = false then (.error "Combat is not active", s)
  else
    let s1 := aiLoop env fuel s
    (.state (getCurrentCombatState env.extractNarration s1), s1)

/-- `get_combat_status`. -/
def getCombatStatus (s : Session) : String :=
  if s.is_active = false then "Combat has ended"
  else "Round " ++ toString (effectiveRound s.encounter_data) ++ " - " ++
       optNameStr s.current_turn_character ++ "\x27s turn"

/-- `is_player_turn`. -/
def isPlayerTurn (s : Session) (playerName : String) : Bool :=
  s.current_turn_character == some playerName

/-- `get_available_actions`. -/
def getAvailableActions (s : Session) (playerName : String) : List String :=
  if isPlayerTurn s playerName = false then []
  else ["attack", "cast_spell", "use_item", "move", "dodge", "help"]

/-- The public operations of a constructed `CombatService` instance. -/
inductive PublicOp where
  | playerTurn (name text : String)
  | aiTurns (fuel : Nat)
  | getState
  | getStatus
  | playerTurnQuery (name : String)
  | availableActions (name : String)

/-- State effect of one public operation on a session (query operations do
not mutate the session). -/
def applyOp (env : Env) : PublicOp → Session → Session
  | .playerTurn n t, s => (processPlayerTurn env s n t).2
  | .aiTurns fuel, s => (processAITurns env fuel s).2
  | .getState, s => s
  | .getStatus, s => s
  | .playerTurnQuery _, s => s
  | .availableActions _, s => s

/-- A concrete environment used for witness instantiations. -/
def trivialEnv : Env where
  oracle := fun _ _ => some "\x7b\x7d"
  isValidJson := fun _ => true
  validate := fun _ => none
  parse := fun _ => some ⟨none⟩
  gen := fun _ _ => "Attack Roll: 11"
  rand := 1234
  refresh := fun h e => (h, e)
  cleanNotes := fun h => h
  extractNarration := fun _ => none
  dynState := fun _ => ""
  initOrder := fun _ => ""

/-! ### Helper lemmas -/

lemma findIdxAux_self : ∀ (l : List Creature), (l.map Creature.name).Nodup →
    ∀ (i : Nat) (hi : i < l.length), findIdxAux (l[i].name) l = some i := by
  intro l
  induction l with
  | nil => intro _ i hi; simp at hi
  | cons a t ih =>
    intro hnd i hi
    rw [List.map_cons, List.nodup_cons] at hnd
    cases i with
    | zero => simp [findIdxAux]
    | succ j =>
      have hj : j < t.length := by simpa using hi
      have hne : (a.name == t[j].name) = false := by
        rw [beq_eq_false_iff_ne]
        intro heq
        exact hnd.1 (heq ▸ List.mem_map_of_mem Creature.name (List.getElem_mem hj))
      simp [findIdxAux, hne, ih hnd.2 j hj]

lemma findIdxAux_spec : ∀ {l : List Creature} {n : String} {i : Nat},
    findIdxAux n l = some i → ∃ hi : i < l.length, l[i].name = n := by
  intro l
  induction l with
  | nil => intro n i h; simp [findIdxAux] at h
  | cons a t ih =>
    intro n i h
    rw [findIdxAux] at h
    by_cases hb : (a.name == n) = true
    · rw [if_pos hb] at h
      cases h
      exact ⟨by simp, by simpa using hb⟩
    · rw [if_neg (by simpa using hb)] at h
      rw [Option.map_eq_some'] at h
      obtain ⟨j, hj, hji⟩ := h
      obtain ⟨hlt, hname⟩ := ih hj
      subst hji
      refine ⟨by simpa using Nat.succ_lt_succ hlt, ?_⟩
      simpa using hname

lemma sortCreatures_perm (l : List Creature) : (sortCreatures l).Perm l :=
  List.perm_insertionSort keyLe l

lemma alive_ne_nil_of_sort {cs A : List Creature}
    (hA : sortCreatures (aliveOf cs) = A) (hpos : 0 < A.length) :
    aliveOf cs ≠ [] := by
  intro h
  rw [h] at hA
  have : A = [] := hA.symm
  rw [this] at hpos
  simp at hpos

lemma creatures_ne_nil_of_alive {cs : List Creature} (h : aliveOf cs ≠ []) :
    cs ≠ [] := by
  intro hc
  apply h
  rw [hc]
  rfl

lemma advanceTurn_eq_found (s : Session) (A : List Creature)
    (hA : sortCreatures (aliveOf s.encounter_data.creatures) = A)
    (hcs : s.encounter_data.creatures ≠ [])
    (hal : aliveOf s.encounter_data.creatures ≠ [])
    {i : Nat} (hfind : findIdxByName s.current_turn_character A = some i) :
    advanceTurn s =
      if i + 1 < A.length then
        {s with current_turn_character := (A[i+1]?).map Creature.name}
      else
        {s with
          current_turn_character := (A[0]?).map Creature.name,
          encounter_data := {s.encounter_data with
            combat_round := some (s.encounter_data.combat_round.getD 1 + 1)}} := by
  unfold advanceTurn
  rw [if_neg hcs, if_neg hal, hA, hfind]

lemma advanceTurn_eq_notFound (s : Session) (A : List Creature)
    (hA : sortCreatures (aliveOf s.encounter_data.creatures) = A)
    (hcs : s.encounter_data.creatures ≠ [])
    (hal : aliveOf s.encounter_data.creatures ≠ [])
    (hfind : findIdxByName s.current_turn_character A = none) :
    advanceTurn s =
      {s with current_turn_character := (A[0]?).map Creature.name} := by
  unfold advanceTurn
  rw [if_neg hcs, if_neg hal, hA, hfind]

lemma advanceTurn_step_mid (s : Session) (A : List Creature)
    (hA : sortCreatures (aliveOf s.encounter_data.creatures) = A)
    (hnd : (A.map Creature.name).Nodup)
    {i : Nat} (hi1 : i + 1 < A.length)
    (hcur : s.current_turn_character = (A[i]?).map Creature.name) :
    advanceTurn s = {s with current_turn_character := (A[i+1]?).map Creature.name} := by
  have hal : aliveOf s.encounter_data.creatures ≠ [] :=
    alive_ne_nil_of_sort hA (by omega)
  have hcs : s.encounter_data.creatures ≠ [] := creatures_ne_nil_of_alive hal
  have hi : i < A.length := by omega
  have hc2 : s.current_turn_character = some (A[i].name) := by
    rw [hcur, List.getElem?_eq_getElem hi]
    rfl
  have hfind : findIdxByName s.current_turn_character A = some i := by
    rw [hc2]
    exact findIdxAux_self A hnd i hi
  rw [advanceTurn_eq_found s A hA hcs hal hfind, if_pos hi1]

lemma advanceTurn_wrap (s : Session) (A : List Creature)
    (hA : sortCreatures (aliveOf s.encounter_data.creatures) = A)
    (hnd : (A.map Creature.name).Nodup)
    (hpos : 0 < A.length)
    (hcur : s.current_turn_character = (A[A.length - 1]?).map Creature.name) :
    advanceTurn s =
      {s with
        current_turn_character := (A[0]?).map Creature.name,
        encounter_data := {s.encounter_data with
          combat_round := some (s.encounter_data.combat_round.getD 1 + 1)}} := by
  have hal : aliveOf s.encounter_data.creatures ≠ [] := alive_ne_nil_of_sort hA hpos
  have hcs : s.encounter_data.creatures ≠ [] := creatures_ne_nil_of_alive hal
  have hlast : A.length - 1 < A.length := by omega
  have hc2 : s.current_turn_character = some (A[A.length - 1].name) := by
    rw [hcur, List.getElem?_eq_getElem hlast]
    rfl
  have hfind : findIdxByName s.current_turn_character A = some (A.length - 1) := by
    rw [hc2]
    exact findIdxAux_self A hnd _ hlast
  rw [advanceTurn_eq_found s A hA hcs hal hfind, if_neg (by omega)]

lemma advanceTurn_walk (cs A : List Creature)
    (hA : sortCreatures (aliveOf cs) = A)
    (hnd : (A.map Creature.name).Nodup) :
    ∀ (d i : Nat) (s : Session), s.encounter_data.creatures = cs →
      i + d < A.length →
      s.current_turn_character = (A[i]?).map Creature.name →
      (advanceTurn^[d] s).current_turn_character = (A[i + d]?).map Creature.name ∧
      (advanceTurn^[d] s).encounter_data = s.encounter_data := by
  intro d
  induction d with
  | zero =>
    intro i s hcs hid hcur
    simpa using hcur
  | succ d ih =>
    intro i s hcs hid hcur
    have hi1 : i + 1 < A.length := by omega
    have hA2 : sortCreatures (aliveOf s.encounter_data.creatures) = A := by
      rw [hcs]
      exact hA
    have hstep := advanceTurn_step_mid s A hA2 hnd hi1 hcur
    have h2 := ih (i + 1) (advanceTurn s)
      (by rw [hstep]; exact hcs)
      (by omega)
      (by rw [hstep])
    rw [Function.iterate_succ_apply]
    constructor
    · rw [h2.1, show i + (d + 1) = i + 1 + d from by omega]
    · rw [h2.2, hstep]

lemma advanceTurn_rotate (s : Session) (A : List Creature)
    (hA : sortCreatures (aliveOf s.encounter_data.creatures) = A)
    (hnd : (A.map Creature.name).Nodup)
    (j : Nat) (hj : j < A.length)
    (hcur : s.current_turn_character = (A[j]?).map Creature.name) :
    (advanceTurn^[A.length] s).current_turn_character = s.current_turn_character ∧
    (advanceTurn^[A.length] s).encounter_data.combat_round =
      some (s.encounter_data.combat_round.getD 1 + 1) ∧
    (advanceTurn^[A.length] s).encounter_data.creatures =
      s.encounter_data.creatures := by
  obtain ⟨hc1, he1⟩ := advanceTurn_walk s.encounter_data.creatures A hA hnd
    (A.length - 1 - j) j s rfl (by omega) hcur
  rw [show j + (A.length - 1 - j) = A.length - 1 from by omega] at hc1
  have hcs1 : (advanceTurn^[A.length - 1 - j] s).encounter_data.creatures
      = s.encounter_data.creatures := by rw [he1]
  have hA1 : sortCreatures (aliveOf
      (advanceTurn^[A.length - 1 - j] s).encounter_data.creatures) = A := by
    rw [hcs1]
    exact hA
  have hwrap := advanceTurn_wrap (advanceTurn^[A.length - 1 - j] s) A hA1 hnd
    (by omega) hc1
  have hcs2 : (advanceTurn (advanceTurn^[A.length - 1 - j] s)).encounter_data.creatures
      = s.encounter_data.creatures := by
    rw [hwrap]
    exact hcs1
  obtain ⟨hc3, he3⟩ := advanceTurn_walk s.encounter_data.creatures A hA hnd
    j 0 (advanceTurn (advanceTurn^[A.length - 1 - j] s)) hcs2 (by omega)
    (by rw [hwrap])
  have hiter : advanceTurn^[A.length] s
      = advanceTurn^[j] (advanceTurn (advanceTurn^[A.length - 1 - j] s)) := by
    conv_lhs => rw [show A.length = j + (1 + (A.length - 1 - j)) from by omega]
    rw [Function.iterate_add_apply, Function.iterate_add_apply,
        Function.iterate_one]
  refine ⟨?_, ?_, ?_⟩
  · rw [hiter, hc3, show 0 + j = j from by omega, hcur]
  · rw [hiter, he3, hwrap]
    have : (advanceTurn^[A.length - 1 - j] s).encounter_data = s.encounter_data := he1
    rw [this]
  · rw [hiter, he3, hwrap]
    exact hcs1

lemma advanceTurn_round (s : Session) :
    (advanceTurn s).encounter_data.combat_round = s.encounter_data.combat_round ∨
    (advanceTurn s).encounter_data.combat_round =
      some (s.encounter_data.combat_round.getD 1 + 1) := by
  unfold advanceTurn
  split
  · exact Or.inl rfl
  · split
    · exact Or.inl rfl
    · split
      · split
        · exact Or.inl rfl
        · exact Or.inr rfl
      · exact Or.inl rfl

lemma advanceTurn_selects_alive (s : Session)
    (hcs : s.encounter_data.creatures ≠ [])
    (hal : aliveOf s.encounter_data.creatures ≠ []) :
    ∃ c, c ∈ aliveOf s.encounter_data.creatures ∧
      (advanceTurn s).current_turn_character = some c.name ∧ isDead c = false := by
  set A := sortCreatures (aliveOf s.encounter_data.creatures) with hA
  have hperm := sortCreatures_perm (aliveOf s.encounter_data.creatures)
  have hApos : 0 < A.length := by
    rw [hperm.length_eq]
    exact List.length_pos.mpr hal
  have pick : ∀ (k : Nat) (hk : k < A.length),
      A[k] ∈ aliveOf s.encounter_data.creatures ∧ isDead A[k] = false := by
    intro k hk
    have hmem : A[k] ∈ A := List.getElem_mem hk
    have hmem2 : A[k] ∈ aliveOf s.encounter_data.creatures := hperm.mem_iff.mp hmem
    have hprop := (List.mem_filter.mp hmem2).2
    exact ⟨hmem2, by simpa using hprop⟩
  cases hfind : findIdxByName s.current_turn_character A with
  | none =>
    have heq := advanceTurn_eq_notFound s A hA.symm hcs hal hfind
    refine ⟨A[0], (pick 0 hApos).1, ?_, (pick 0 hApos).2⟩
    rw [heq, List.getElem?_eq_getElem hApos]
    rfl
  | some i =>
    have heq := advanceTurn_eq_found s A hA.symm hcs hal hfind
    by_cases hlt : i + 1 < A.length
    · refine ⟨A[i+1], (pick (i+1) hlt).1, ?_, (pick (i+1) hlt).2⟩
      rw [heq, if_pos hlt, List.getElem?_eq_getElem hlt]
      rfl
    · refine ⟨A[0], (pick 0 hApos).1, ?_, (pick 0 hApos).2⟩
      rw [heq, if_neg hlt, List.getElem?_eq_getElem hApos]
      rfl

lemma initiativeOrder_alive (enc : Encounter) :
    ∀ e ∈ initiativeOrder enc, (lowerStr e.status == "dead") = false := by
  intro e he
  unfold initiativeOrder at he
  have h2 := (List.perm_insertionSort entryLe _).mem_iff.mp he
  obtain ⟨c, hc, rfl⟩ := List.mem_map.mp h2
  have h3 := (List.mem_filter.mp hc).2
  simpa [toInitEntry, isDead] using h3

lemma checkCombatEnded_iff (enc : Encounter) :
    checkCombatEnded enc = true ↔
      (enc.creatures = [] ∨
       (playersOf enc.creatures ≠ [] ∧
        ∀ c ∈ playersOf enc.creatures, isDead c = true) ∨
       (hostilesOf enc.creatures ≠ [] ∧
        ∀ c ∈ hostilesOf enc.creatures, isDead c = true)) := by
  unfold checkCombatEnded
  split_ifs with h1 h2 h3 <;>
    simp_all [List.isEmpty_iff, List.all_eq_true, Bool.and_eq_true,
      Bool.not_eq_true']

lemma processPlayerTurn_inactive (env : Env) (s : Session) (n t : String)
    (h : s.is_active = false) :
    processPlayerTurn env s n t = (.error "Combat is not active", s) := by
  unfold processPlayerTurn
  rw [if_pos h]

lemma processAITurns_inactive (env : Env) (fuel : Nat) (s : Session)
    (h : s.is_active = false) :
    processAITurns env fuel s = (.error "Combat is not active", s) := by
  unfold processAITurns
  rw [if_pos h]

lemma processPlayerTurn_wrongName (env : Env) (s : Session) (n t : String)
    (hact : s.is_active = true)
    (hname : s.current_turn_character ≠ some n) :
    processPlayerTurn env s n t =
      (.error (notYourTurnMsg n s.current_turn_character), s) := by
  unfold processPlayerTurn
  rw [if_neg (by simp [hact]), if_pos (Ne.symm hname)]

lemma retryAux_always_feedback
    (oracle : List Message → Nat → Option String) (isJson : String → Bool)
    (validate : String → Option String)
    (Ho : ∀ h n, (oracle h n).isSome = true)
    (Hj : ∀ r, isJson r = true)
    (Hv : ∀ r, (validate r).isSome = true) :
    ∀ (fuel attempt : Nat) (hist : List Message), 0 < fuel →
      (retryAux oracle isJson validate fuel attempt hist).response = none ∧
      (retryAux oracle isJson validate fuel attempt hist).attempts = fuel ∧
      (retryAux oracle isJson validate fuel attempt hist).history.length
        = hist.length + (fuel - 1) := by
  intro fuel
  induction fuel with
  | zero => intro a h hpos; omega
  | succ f ih =>
    intro attempt hist _
    obtain ⟨r, hr⟩ := Option.isSome_iff_exists.mp (Ho hist attempt)
    obtain ⟨fb, hfb⟩ := Option.isSome_iff_exists.mp (Hv r)
    rcases Nat.eq_zero_or_pos f with hf | hf
    · subst hf
      simp [retryAux, hr, Hj r, hfb]
    · have h3 := ih (attempt + 1) (hist ++ [⟨"user", fb⟩]) hf
      have hfne : ¬ (f = 0) := by omega
      refine ⟨?_, ?_, ?_⟩ <;>
        simp [retryAux, hr, Hj r, hfb, hfne, addAttempt, h3.1, h3.2.1, h3.2.2] <;>
        omega

lemma getPrerolls_cached (gen : Encounter → Int → String) (rand : Int)
    (enc : Encounter) (roundNum : Int) (pc : PrerollCache)
    (hpc : enc.preroll_cache = some pc) (hr : roundNum ≤ pc.round)
    (hne : pc.rolls ≠ "") :
    getPrerollsForRound gen rand enc roundNum = ⟨pc.rolls, enc, 0, 0⟩ := by
  have h1 : ¬ (pc.round < roundNum) := not_lt.mpr hr
  simp [getPrerollsForRound, hpc, h1, hne]

/-! ### Concrete fixtures for witnesses and counterexamples -/

def exAlice : Creature := ⟨"Alice", "player", 15, 10, 10, "alive"⟩

def exGoblin : Creature := ⟨"Goblin", "enemy", 10, 7, 7, "alive"⟩

def exDead : Creature := ⟨"Aaa", "enemy", 20, 0, 7, "Dead"⟩

def exEnc : Encounter := ⟨[exGoblin, exAlice], some 5, none, none⟩

def exSession : Session := ⟨"E1", true, some "Alice", [], exEnc⟩

def exInactive : Session := ⟨"E9", false, some "Alice", [], exEnc⟩

def exEncDeadFirst : Encounter := ⟨[exDead, exGoblin], none, none, none⟩

def exSessionDead : Session := ⟨"E2", true, some "Goblin", [], exEncDeadFirst⟩

def exSessionLost : Session := ⟨"E3", true, some "Zed", [], exEnc⟩

def alwaysFeedbackOracle : List Message → Nat → Option String :=
  fun _ _ => some "resp"

def alwaysTrueJson : String → Bool := fun _ => true

def alwaysFeedback : String → Option String :=
  fun _ => some "Feedback: use the preroll pools"

def exParseLower : String → Option ParsedResponse := fun _ => some ⟨some 1⟩

def exEnvLower : Env := {trivialEnv with parse := exParseLower}

def exGen : Encounter → Int → String := fun _ _ => "Attack Roll: 17"

def exEncPDEA : Encounter :=
  ⟨[⟨"P", "player", 1, 0, 1, "dead"⟩, ⟨"E", "enemy", 1, 1, 1, "alive"⟩],
   none, none, none⟩

def exEncCached : Encounter :=
  ⟨[exGoblin, exAlice], some 3, none, some ⟨3, "R3 rolls", "3-42"⟩⟩

def exEncStale : Encounter :=
  ⟨[exGoblin, exAlice], some 2, none, some ⟨5, "R5 rolls", "5-42"⟩⟩

/-! ### Claim C1 — retry bound of the response validator -/

/-- Claim C1, counterexample: with a rule checker that returns feedback text
on every attempt, `_get_ai_response_with_validation` makes exactly
`max_retries` (5) oracle calls and returns failure, but the transcript
receives 4 corrective entries, not `max_retries` = 5 as the claim states:
the final failing attempt returns without appending its feedback. -/
theorem C1_counterexample :
    (getAIResponseWithValidation alwaysFeedbackOracle alwaysTrueJson
        alwaysFeedback []).response = none ∧
    (getAIResponseWithValidation alwaysFeedbackOracle alwaysTrueJson
        alwaysFeedback []).attempts = maxRetries ∧
    (getAIResponseWithValidation alwaysFeedbackOracle alwaysTrueJson
        alwaysFeedback []).history.length = 4 ∧
    (getAIResponseWithValidation alwaysFeedbackOracle alwaysTrueJson
        alwaysFeedback []).history.length ≠ maxRetries := by
  decide

/-- Claim C1, amended: when the oracle always answers, every answer parses
as JSON, and the rule checker returns feedback on every attempt, the retry
loop performs exactly `max_retries` (5) attempts, returns failure (`None`),
and appends exactly `max_retries - 1` (4) corrective entries to the
transcript — one per failed attempt except the last, which returns without
appending. -/
theorem C1_retry_bound (oracle : List Message → Nat → Option String)
    (isJson : String → Bool) (validate : String → Option String)
    (hist : List Message)
    (Ho : ∀ h n, (oracle h n).isSome = true)
    (Hj : ∀ r, isJson r = true)
    (Hv : ∀ r, (validate r).isSome = true) :
    (getAIResponseWithValidation oracle isJson validate hist).response = none ∧
    (getAIResponseWithValidation oracle isJson validate hist).attempts
      = maxRetries ∧
    (getAIResponseWithValidation oracle isJson validate hist).history.length
      = hist.length + (maxRetries - 1) :=
  retryAux_always_feedback oracle isJson validate Ho Hj Hv maxRetries 0 hist
    (by decide)

/-- Claim C1, witness: the amended retry-bound theorem applied to a concrete
always-feedback environment. -/
theorem C1_witness :
    (getAIResponseWithValidation alwaysFeedbackOracle alwaysTrueJson
        alwaysFeedback []).response = none ∧
    (getAIResponseWithValidation alwaysFeedbackOracle alwaysTrueJson
        alwaysFeedback []).attempts = maxRetries ∧
    (getAIResponseWithValidation alwaysFeedbackOracle alwaysTrueJson
        alwaysFeedback []).history.length
      = ([] : List Message).length + (maxRetries - 1) :=
  C1_retry_bound alwaysFeedbackOracle alwaysTrueJson alwaysFeedback []
    (fun _ _ => rfl) (fun _ => rfl) (fun _ => rfl)

/-! ### Claim C2 — round monotonicity -/

/-- Claim C2, counterexample: a single `process_player_turn` call on an
active session at round 5, whose validated AI response carries
`combat_round = 1`, leaves the encounter at round 1 — `_process_ai_response`
overwrites the round with the response value, so the round counter can
decrease. -/
theorem C2_counterexample :
    effectiveRound exSession.encounter_data = 5 ∧
    effectiveRound
      (processPlayerTurn exEnvLower exSession "Alice" "attack").2.encounter_data
      = 1 ∧
    ¬(effectiveRound exSession.encounter_data ≤
      effectiveRound
        (processPlayerTurn exEnvLower exSession "Alice" "attack").2.encounter_data) := by
  decide

/-- Claim C2, amended: under `_advance_turn` the round counter never
decreases — each call leaves it unchanged or increments it by exactly 1, and
a full initiative-order rollover (N calls through N living creatures)
increments it by exactly 1; however `_process_ai_response` overwrites the
round with the `combat_round` value of the AI response, which may
decrease it. -/
theorem C2_round_monotone :
    (∀ s : Session,
      (advanceTurn s).encounter_data.combat_round.getD 1
          = s.encounter_data.combat_round.getD 1 ∨
      (advanceTurn s).encounter_data.combat_round.getD 1
          = s.encounter_data.combat_round.getD 1 + 1) ∧
    (∀ (s : Session) (A : List Creature) (j : Nat) (hj : j < A.length),
      sortCreatures (aliveOf s.encounter_data.creatures) = A →
      (A.map Creature.name).Nodup →
      s.current_turn_character = (A[j]?).map Creature.name →
      (advanceTurn^[A.length] s).encounter_data.combat_round
        = some (s.encounter_data.combat_round.getD 1 + 1)) ∧
    (∀ (parse : String → Option ParsedResponse) (resp : String)
       (enc : Encounter) (p : ParsedResponse) (r : Int),
      parse resp = some p → p.combat_round = some r →
      (processAIResponse parse resp enc).1.combat_round = some r) := by
  refine ⟨?_, ?_, ?_⟩
  · intro s
    rcases advanceTurn_round s with h | h
    · exact Or.inl (by rw [h])
    · exact Or.inr (by rw [h, Option.getD_some])
  · intro s A j hj hA hnd hcur
    exact (advanceTurn_rotate s A hA hnd j hj hcur).2.1
  · intro parse resp enc p r hp hcr
    simp [processAIResponse, hp, hcr]

/-- Claim C2, witness: the amended theorem applied to a concrete
two-creature session at round 5 (full rollover yields round 6) and to a
concrete parsed response carrying `combat_round = 1`. -/
theorem C2_witness :
    (advanceTurn^[2] exSession).encounter_data.combat_round = some 6 ∧
    (processAIResponse exParseLower "resp" exEnc).1.combat_round = some 1 :=
  ⟨C2_round_monotone.2.1 exSession [exAlice, exGoblin] 0 (by decide)
      (by decide) (by decide) (by decide),
   C2_round_monotone.2.2 exParseLower "resp" exEnc ⟨some 1⟩ 1 rfl rfl⟩

/-! ### Claim C3 — dead creatures never selected / displayed -/

/-- Claim C3, counterexample: `_determine_first_turn` sorts all creatures
without filtering dead ones, so at session construction a dead creature with
the highest initiative is selected as `current_turn_character`. -/
theorem C3_counterexample :
    determineFirstTurn exEncDeadFirst = some "Aaa" ∧
    exDead ∈ exEncDeadFirst.creatures ∧
    exDead.name = "Aaa" ∧
    isDead exDead = true := by
  decide

/-- Claim C3, amended: `_advance_turn` only ever selects a living creature
as `current_turn_character`, and the `initiative_order` list of the
client-facing state snapshot contains no creature whose status is "dead"
case-insensitively; however the first-turn determination at session
construction does not filter dead creatures and may select one. -/
theorem C3_dead_excluded :
    (∀ s : Session, s.encounter_data.creatures ≠ [] →
      aliveOf s.encounter_data.creatures ≠ [] →
      ∃ c, c ∈ aliveOf s.encounter_data.creatures ∧
        (advanceTurn s).current_turn_character = some c.name ∧
        isDead c = false) ∧
    (∀ (enc : Encounter) (e : InitEntry), e ∈ initiativeOrder enc →
      (lowerStr e.status == "dead") = false) :=
  ⟨fun s hcs hal => advanceTurn_selects_alive s hcs hal,
   fun enc e he => initiativeOrder_alive enc e he⟩

/-- Claim C3, witness: the amended theorem applied to a concrete encounter
holding a dead creature with top initiative. -/
theorem C3_witness :
    (∃ c, c ∈ aliveOf exSessionDead.encounter_data.creatures ∧
      (advanceTurn exSessionDead).current_turn_character = some c.name ∧
      isDead c = false) ∧
    (lowerStr (toInitEntry exGoblin).status == "dead") = false :=
  ⟨C3_dead_excluded.1 exSessionDead (by decide) (by decide),
   C3_dead_excluded.2 exEncDeadFirst (toInitEntry exGoblin) (by decide)⟩

/-! ### Claim C4 — combat-end predicate -/

/-- Claim C4, counterexample: on creatures
`[{type: player, status: dead}, {type: enemy, status: alive}]`,
`_check_combat_ended` returns `true` (all player creatures are dead), not
`false` as the claim asserts. -/
theorem C4_counterexample :
    checkCombatEnded exEncPDEA = true ∧ checkCombatEnded exEncPDEA ≠ false := by
  decide

/-- Claim C4, amended: the combat-end check returns true iff the creature
list is empty, or the (non-empty) set of `player` creatures is all dead, or
the (non-empty) set of `enemy`/`npc` creatures is all dead; in particular it
returns `true` on `[{player, dead}, {enemy, alive}]` (all players dead),
`true` on the empty list, and `false` when both sides have a living
creature. -/
theorem C4_check_ended :
    (∀ enc : Encounter, checkCombatEnded enc = true ↔
      (enc.creatures = [] ∨
       (playersOf enc.creatures ≠ [] ∧
        ∀ c ∈ playersOf enc.creatures, isDead c = true) ∨
       (hostilesOf enc.creatures ≠ [] ∧
        ∀ c ∈ hostilesOf enc.creatures, isDead c = true))) ∧
    checkCombatEnded exEncPDEA = true ∧
    checkCombatEnded (⟨[], none, none, none⟩ : Encounter) = true ∧
    checkCombatEnded exEnc = false :=
  ⟨checkCombatEnded_iff, by decide, by decide, by decide⟩

/-! ### Claim C5 — turn-ownership rejection -/

/-- Claim C5: on an active session, `process_player_turn` for a player who
is not the current-turn character returns the rejection result and leaves
the session — in particular the round counter, `current_turn_character`,
and the transcript length — completely unchanged. -/
theorem C5_ownership_rejection (env : Env) (s : Session)
    (playerName actionText : String)
    (hact : s.is_active = true)
    (hname : s.current_turn_character ≠ some playerName) :
    processPlayerTurn env s playerName actionText =
      (.error (notYourTurnMsg playerName s.current_turn_character), s) ∧
    (processPlayerTurn env s playerName actionText).2.encounter_data.combat_round
      = s.encounter_data.combat_round ∧
    (processPlayerTurn env s playerName actionText).2.current_turn_character
      = s.current_turn_character ∧
    (processPlayerTurn env s playerName actionText).2.conversation_history.length
      = s.conversation_history.length := by
  have h := processPlayerTurn_wrongName env s playerName actionText hact hname
  exact ⟨h, by rw [h], by rw [h], by rw [h]⟩

/-- Claim C5, witness: the rejection theorem applied to a concrete session
whose current turn belongs to Alice while Bob acts. -/
theorem C5_witness :
    processPlayerTurn trivialEnv exSession "Bob" "attack" =
      (.error (notYourTurnMsg "Bob" (some "Alice")), exSession) ∧
    (processPlayerTurn trivialEnv exSession "Bob" "attack").2.encounter_data.combat_round
      = exSession.encounter_data.combat_round ∧
    (processPlayerTurn trivialEnv exSession "Bob" "attack").2.current_turn_character
      = exSession.current_turn_character ∧
    (processPlayerTurn trivialEnv exSession "Bob" "attack").2.conversation_history.length
      = exSession.conversation_history.length :=
  C5_ownership_rejection trivialEnv exSession "Bob" "attack" (by decide) (by decide)

/-! ### Claim C6 — preroll idempotence -/

/-- Claim C6, counterexample: when the preroll cache already holds a
non-empty rolls text for round 3, two consecutive preroll requests for
round 3 return the identical cached text but persist the encounter document
zero times in total — not exactly once as the claim asserts: neither call
generates or persists anything. -/
theorem C6_counterexample :
    (getPrerollsForRound exGen 7 exEncCached 3).text
      = (getPrerollsForRound exGen 7
          (getPrerollsForRound exGen 7 exEncCached 3).encounter 3).text ∧
    (getPrerollsForRound exGen 7 exEncCached 3).saves
      + (getPrerollsForRound exGen 7
          (getPrerollsForRound exGen 7 exEncCached 3).encounter 3).saves = 0 ∧
    (getPrerollsForRound exGen 7 exEncCached 3).saves
      + (getPrerollsForRound exGen 7
          (getPrerollsForRound exGen 7 exEncCached 3).encounter 3).saves ≠ 1 := by
  decide

/-- Claim C6, amended: for every encounter whose preroll cache already holds
a non-empty rolls text for round r, two consecutive preroll requests for
round r both return exactly the cached text (hence identical results), and
neither call performs any generation or persistence write — the document is
persisted zero times across both calls. -/
theorem C6_preroll_idempotent (gen : Encounter → Int → String)
    (rand1 rand2 : Int) (enc : Encounter) (roundNum : Int) (pc : PrerollCache)
    (hpc : enc.preroll_cache = some pc) (hr : pc.round = roundNum)
    (hne : pc.rolls ≠ "") :
    getPrerollsForRound gen rand1 enc roundNum = ⟨pc.rolls, enc, 0, 0⟩ ∧
    getPrerollsForRound gen rand2
        (getPrerollsForRound gen rand1 enc roundNum).encounter roundNum
      = ⟨pc.rolls, enc, 0, 0⟩ := by
  have h1 := getPrerolls_cached gen rand1 enc roundNum pc hpc (le_of_eq hr.symm) hne
  refine ⟨h1, ?_⟩
  rw [h1]
  exact getPrerolls_cached gen rand2 enc roundNum pc hpc (le_of_eq hr.symm) hne

/-- Claim C6, witness: the amended theorem applied to a concrete encounter
with a cached non-empty rolls text for round 3. -/
theorem C6_witness :
    getPrerollsForRound exGen 7 exEncCached 3 = ⟨"R3 rolls", exEncCached, 0, 0⟩ ∧
    getPrerollsForRound exGen 11
        (getPrerollsForRound exGen 7 exEncCached 3).encounter 3
      = ⟨"R3 rolls", exEncCached, 0, 0⟩ :=
  C6_preroll_idempotent exGen 7 11 exEncCached 3 ⟨3, "R3 rolls", "3-42"⟩
    (by decide) (by decide) (by decide)

/-! ### Claim C7 — turn-order determinism and rotation -/

/-- Claim C7: the `(-initiative, name)` sort key is a total order and
sorting by it yields a permutation sorted by that key; calling
`_advance_turn` N times, where N is the number of living creatures and the
starting creature is among them (at sorted position j), returns
`current_turn_character` to the starting creature and increments the round
counter by exactly 1; and if the current creature is not found among the
living creatures, `_advance_turn` falls back to the first living creature
in sorted order without touching the encounter (in particular without
incrementing the round). -/
theorem C7_turn_rotation :
    (∀ a b : Creature, keyLe a b ∨ keyLe b a) ∧
    (∀ l : List Creature,
      (sortCreatures l).Perm l ∧ List.Sorted keyLe (sortCreatures l)) ∧
    (∀ (s : Session) (A : List Creature) (j : Nat) (hj : j < A.length),
      sortCreatures (aliveOf s.encounter_data.creatures) = A →
      (A.map Creature.name).Nodup →
      s.current_turn_character = (A[j]?).map Creature.name →
      (advanceTurn^[A.length] s).current_turn_character
        = s.current_turn_character ∧
      (advanceTurn^[A.length] s).encounter_data.combat_round
        = some (s.encounter_data.combat_round.getD 1 + 1)) ∧
    (∀ s : Session, s.encounter_data.creatures ≠ [] →
      aliveOf s.encounter_data.creatures ≠ [] →
      findIdxByName s.current_turn_character
        (sortCreatures (aliveOf s.encounter_data.creatures)) = none →
      (advanceTurn s).current_turn_character
        = ((sortCreatures (aliveOf s.encounter_data.creatures))[0]?).map
            Creature.name ∧
      (advanceTurn s).encounter_data = s.encounter_data) := by
  refine ⟨fun a b => IsTotal.total a b, ?_, ?_, ?_⟩
  · intro l
    exact ⟨sortCreatures_perm l, List.sorted_insertionSort keyLe l⟩
  · intro s A j hj hA hnd hcur
    have h := advanceTurn_rotate s A hA hnd j hj hcur
    exact ⟨h.1, h.2.1⟩
  · intro s hcs hal hfind
    have h := advanceTurn_eq_notFound s _ rfl hcs hal hfind
    exact ⟨by rw [h], by rw [h]⟩

/-- Claim C7, witness: the rotation theorem applied to a concrete
two-creature session (two advances return the turn to Alice and increment
the round from 5 to 6), and the fallback case applied to a session whose
current creature name matches no living creature. -/
theorem C7_witness :
    ((advanceTurn^[2] exSession).current_turn_character
        = exSession.current_turn_character ∧
     (advanceTurn^[2] exSession).encounter_data.combat_round = some 6) ∧
    ((advanceTurn exSessionLost).current_turn_character = some "Alice" ∧
     (advanceTurn exSessionLost).encounter_data = exSessionLost.encounter_data) :=
  ⟨C7_turn_rotation.2.2.1 exSession [exAlice, exGoblin] 0 (by decide)
      (by decide) (by decide) (by decide),
   C7_turn_rotation.2.2.2 exSessionLost (by decide) (by decide) (by decide)⟩

/-! ### Claim C8 — inactivity is terminal -/

/-- Claim C8: once a session's `is_active` flag is false it stays false
under every public operation (no operation reactivates a session), and both
`process_player_turn` and `process_ai_turns` on an inactive session return
the error result and leave the session state — encounter, turn state and
transcript — untouched. -/
theorem C8_inactive_terminal :
    (∀ (env : Env) (op : PublicOp) (s : Session), s.is_active = false →
      applyOp env op s = s) ∧
    (∀ (env : Env) (op : PublicOp) (s : Session),
      (applyOp env op s).is_active = true → s.is_active = true) ∧
    (∀ (env : Env) (s : Session) (n t : String), s.is_active = false →
      processPlayerTurn env s n t = (.error "Combat is not active", s)) ∧
    (∀ (env : Env) (fuel : Nat) (s : Session), s.is_active = false →
      processAITurns env fuel s = (.error "Combat is not active", s)) := by
  have hfix : ∀ (env : Env) (op : PublicOp) (s : Session), s.is_active = false →
      applyOp env op s = s := by
    intro env op s h
    cases op with
    | playerTurn n t => simp [applyOp, processPlayerTurn_inactive env s n t h]
    | aiTurns fuel => simp [applyOp, processAITurns_inactive env fuel s h]
    | getState => rfl
    | getStatus => rfl
    | playerTurnQuery _ => rfl
    | availableActions _ => rfl
  refine ⟨hfix, ?_,
    fun env s n t h => processPlayerTurn_inactive env s n t h,
    fun env fuel s h => processAITurns_inactive env fuel s h⟩
  intro env op s h
  cases hx : s.is_active with
  | true => rfl
  | false =>
    rw [hfix env op s hx] at h
    rw [hx] at h
    exact h.symm ▸ rfl

/-- Claim C8, witness: the terminality theorem applied to a concrete
inactive session and one active session. -/
theorem C8_witness :
    applyOp trivialEnv .getState exInactive = exInactive ∧
    exSession.is_active = true ∧
    processPlayerTurn trivialEnv exInactive "Alice" "x"
      = (.error "Combat is not active", exInactive) ∧
    processAITurns trivialEnv 3 exInactive
      = (.error "Combat is not active", exInactive) :=
  ⟨C8_inactive_terminal.1 trivialEnv .getState exInactive (by decide),
   C8_inactive_terminal.2.1 trivialEnv .getState exSession (by decide),
   C8_inactive_terminal.2.2.1 trivialEnv exInactive "Alice" "x" (by decide),
   C8_inactive_terminal.2.2.2 trivialEnv 3 exInactive (by decide)⟩

/-! ### Claim C9 — inactive state payload -/

/-- Claim C9: whenever `is_active` is false, `get_current_combat_state`
returns exactly the bare `{"is_active": False}` payload, regardless of the
encounter data, transcript or turn state held by the session. -/
theorem C9_inactive_state (f : String → Option String) (s : Session)
    (h : s.is_active = false) :
    getCurrentCombatState f s = StatePayload.inactive := by
  unfold getCurrentCombatState
  rw [if_pos h]

/-- Claim C9, witness: the payload theorem applied to a concrete inactive
session holding a full encounter, a current turn and a transcript. -/
theorem C9_witness :
    getCurrentCombatState trivialEnv.extractNarration exInactive
      = StatePayload.inactive :=
  C9_inactive_state trivialEnv.extractNarration exInactive (by decide)

/-! ### Claim C10 — stale later-round preroll cache -/

/-- Claim C10: when the cached preroll round is strictly greater than the
requested round and the cached rolls text is non-empty, the preroll request
returns the cached (stale, later-round) text unchanged, performs no
generation, and neither modifies nor persists the encounter document. -/
theorem C10_stale_cache (gen : Encounter → Int → String) (rand : Int)
    (enc : Encounter) (roundNum : Int) (pc : PrerollCache)
    (hpc : enc.preroll_cache = some pc) (hr : roundNum < pc.round)
    (hne : pc.rolls ≠ "") :
    getPrerollsForRound gen rand enc roundNum = ⟨pc.rolls, enc, 0, 0⟩ :=
  getPrerolls_cached gen rand enc roundNum pc hpc (le_of_lt hr) hne

/-- Claim C10, witness: the stale-cache theorem applied to a concrete
encounter cached at round 5 while round 2 is requested. -/
theorem C10_witness :
    getPrerollsForRound exGen 7 exEncStale 2 = ⟨"R5 rolls", exEncStale, 0, 0⟩ :=
  C10_stale_cache exGen 7 exEncStale 2 ⟨5, "R5 rolls", "5-42"⟩
    (by decide) (by decide) (by decide)

end NEQ
